import Mathlib

set_option linter.unusedVariables false

/-!
Shallow embedding of the RMG News dashboard front-end.

Two layers are modelled, following the two source modules:

* the API client (the fetch wrapper `fetchWithTimeout` and the typed
  endpoint methods of the `api` object), embedded as functions over the
  possible outcomes of the single underlying `fetch` call;
* the dashboard page component, whose React state is embedded as a
  record `DashState` and whose event handlers (`fetchInitialData`,
  `fetchNews`, `fetchNewsBySource`, `handleSearch`, `handleSourceChange`,
  `handlePageChange`) are embedded as functions from a backend oracle and
  a state to the successor state together with the trace of API calls
  issued.

Numeric JSON fields that the front-end only passes through (confidence
scores, metric values) are modelled as rationals; machine floating point
plays no computational role in the embedded code.
-/

/-- An HTTP response as seen by the client once the `fetch` promise has
resolved: status code, status text, and the JSON-decoded body. -/
structure HttpResponse (T : Type) where
  status : Nat
  statusText : String
  body : T

/-- `Response.ok` of the fetch API: status in the inclusive range 200-299. -/
def HttpResponse.ok {T : Type} (r : HttpResponse T) : Bool :=
  decide (200 ≤ r.status ∧ r.status < 300)

/-- The possible outcomes of one `fetch` attempt: the promise resolves with
a response; or it rejects with an `AbortError` because the timeout fired
and the `AbortController` cancelled the request; or it rejects with some
other (network) error. -/
inductive FetchOutcome (T : Type) where
  | success (resp : HttpResponse T)
  | abortError
  | otherError (msg : String)

/-- `fetchWithTimeout` from the API client: a single `fetch` call guarded by
a `setTimeout`-driven `AbortController`.  An `AbortError` is rethrown as
an error whose message is `Request timeout after <timeout>ms`; any other
rejection is rethrown unchanged.  The second component counts the `fetch`
attempts made by the call (always one: there is no retry loop). -/
def fetchWithTimeout {T : Type} (timeout : Nat) (o : FetchOutcome T) :
    Except String (HttpResponse T) × Nat :=
  (match o with
    | .success r => .ok r
    | .abortError => .error ("Request timeout after " ++ toString timeout ++ "ms")
    | .otherError msg => .error msg,
   1)

/-- The `NewsArticle` response shape of the API client. -/
structure NewsArticle where
  id : Nat
  title : String
  content : String
  summary : String
  url : String
  source : String
  source_url : String
  author : String
  published_at : String
  created_at : String
  updated_at : String
  ai_summary : Option String
  market_impact : Option String
  confidence_score : Option ℚ
  is_processed : Option Bool
deriving DecidableEq

/-- The `NewsSource` response shape. -/
structure NewsSource where
  name : String
  url : String
  base_url : String
deriving DecidableEq

/-- The `SourcesResponse` shape; the JS string-keyed map of sources is
modelled as an association list. -/
structure SourcesResponse where
  sources : List (String × NewsSource)
  total : Nat
deriving DecidableEq

/-- The `NewsResponse` shape of paginated article queries. -/
structure NewsResponse where
  articles : List NewsArticle
  total : Nat
  page : Nat
  per_page : Nat
deriving DecidableEq

/-- The `Topic` response shape. -/
structure Topic where
  id : Nat
  name : String
  category : String
  is_trending : Bool
  trend_score : ℚ
  created_at : String
deriving DecidableEq

/-- The `TrendingTopicsResponse` shape. -/
structure TrendingTopicsResponse where
  topics : List Topic
  updated_at : String
deriving DecidableEq

/-- The `MarketTrend` response shape. -/
structure MarketTrend where
  id : Nat
  metric_name : String
  metric_value : ℚ
  metric_unit : Option String
  category : String
  time_period : String
  recorded_at : String
  source : Option String
  confidence : Option ℚ
deriving DecidableEq

/-- The sentiment summary nested in `MarketInsightsResponse`. -/
structure SentimentOverview where
  positive : String
  negative : String
  neutral : String
deriving DecidableEq

/-- The `MarketInsightsResponse` shape. -/
structure MarketInsightsResponse where
  sentiment_overview : SentimentOverview
  trending_topics : List Topic
  market_trends : List MarketTrend
  total_articles : Nat
  last_updated : String
deriving DecidableEq

/-- The `NewsAnalysis` response shape returned by the analyze endpoint. -/
structure NewsAnalysis where
  id : Nat
  article_id : Nat
  key_insights : String
  market_impact : String
  industry_sectors : String
  geographic_impact : String
  agno_analysis_id : String
  agno_confidence : ℚ
  created_at : String
deriving DecidableEq

/-- The anonymous response shape of `fetchNewsFromSources`: a message, a
per-source article count map, the total, and a timestamp. -/
structure FetchNewsResult where
  message : String
  results : List (String × Nat)
  total_articles : Nat
  timestamp : String
deriving DecidableEq

/-- `api.getNews`: one `fetchWithTimeout` against `/api/news` with a
45000 ms timeout; a non-2xx response becomes a thrown error embedding the
status and status text.  URL and query-string construction are elided;
the query, page, per-page and source arguments parameterise the call. -/
def api.getNews (query : Option String) (page : Nat) (perPage : Nat)
    (source : Option String) (o : FetchOutcome NewsResponse) :
    Except String NewsResponse × Nat :=
  let fr := fetchWithTimeout 45000 o
  (match fr.1 with
    | .error e => .error e
    | .ok resp =>
        if resp.ok then .ok resp.body
        else .error ("Failed to fetch news: " ++ toString resp.status ++ " "
          ++ resp.statusText),
   fr.2)

/-- `api.getNewsBySource`: one `fetchWithTimeout` against
`/api/news/sources/<sourceId>` with a 45000 ms timeout. -/
def api.getNewsBySource (sourceId : String) (page : Nat) (perPage : Nat)
    (o : FetchOutcome NewsResponse) : Except String NewsResponse × Nat :=
  let fr := fetchWithTimeout 45000 o
  (match fr.1 with
    | .error e => .error e
    | .ok resp =>
        if resp.ok then .ok resp.body
        else .error ("Failed to fetch news from source: " ++ toString resp.status
          ++ " " ++ resp.statusText),
   fr.2)

/-- `api.getSources`: one `fetchWithTimeout` against `/api/sources` with a
15000 ms timeout. -/
def api.getSources (o : FetchOutcome SourcesResponse) :
    Except String SourcesResponse × Nat :=
  let fr := fetchWithTimeout 15000 o
  (match fr.1 with
    | .error e => .error e
    | .ok resp =>
        if resp.ok then .ok resp.body
        else .error ("Failed to fetch sources: " ++ toString resp.status ++ " "
          ++ resp.statusText),
   fr.2)

/-- `api.fetchNewsFromSources`: one POST via `fetchWithTimeout` against
`/api/fetch-news` with a 120000 ms timeout. -/
def api.fetchNewsFromSources (articlesPerSource : Nat)
    (o : FetchOutcome FetchNewsResult) : Except String FetchNewsResult × Nat :=
  let fr := fetchWithTimeout 120000 o
  (match fr.1 with
    | .error e => .error e
    | .ok resp =>
        if resp.ok then .ok resp.body
        else .error ("Failed to fetch news from sources: " ++ toString resp.status
          ++ " " ++ resp.statusText),
   fr.2)

/-- `api.getHeadlines`: one `fetchWithTimeout` against `/api/headlines` with
a 45000 ms timeout. -/
def api.getHeadlines (category : String) (country : String) (pageSize : Nat)
    (o : FetchOutcome NewsResponse) : Except String NewsResponse × Nat :=
  let fr := fetchWithTimeout 45000 o
  (match fr.1 with
    | .error e => .error e
    | .ok resp =>
        if resp.ok then .ok resp.body
        else .error ("Failed to fetch headlines: " ++ toString resp.status ++ " "
          ++ resp.statusText),
   fr.2)

/-- `api.getTrendingTopics`: one `fetchWithTimeout` against `/api/trending`
with a 45000 ms timeout. -/
def api.getTrendingTopics (hoursBack : Nat)
    (o : FetchOutcome TrendingTopicsResponse) :
    Except String TrendingTopicsResponse × Nat :=
  let fr := fetchWithTimeout 45000 o
  (match fr.1 with
    | .error e => .error e
    | .ok resp =>
        if resp.ok then .ok resp.body
        else .error ("Failed to fetch trending topics: " ++ toString resp.status
          ++ " " ++ resp.statusText),
   fr.2)

/-- `api.getMarketInsights`: one `fetchWithTimeout` against `/api/insights`
with a 45000 ms timeout. -/
def api.getMarketInsights (o : FetchOutcome MarketInsightsResponse) :
    Except String MarketInsightsResponse × Nat :=
  let fr := fetchWithTimeout 45000 o
  (match fr.1 with
    | .error e => .error e
    | .ok resp =>
        if resp.ok then .ok resp.body
        else .error ("Failed to fetch market insights: " ++ toString resp.status
          ++ " " ++ resp.statusText),
   fr.2)

/-- `api.analyzeArticle`: one POST via `fetchWithTimeout` against
`/api/analyze` with a 60000 ms timeout. -/
def api.analyzeArticle (articleText : String) (title : String)
    (o : FetchOutcome NewsAnalysis) : Except String NewsAnalysis × Nat :=
  let fr := fetchWithTimeout 60000 o
  (match fr.1 with
    | .error e => .error e
    | .ok resp =>
        if resp.ok then .ok resp.body
        else .error ("Failed to analyze article: " ++ toString resp.status ++ " "
          ++ resp.statusText),
   fr.2)

/-- `api.getSentimentAnalysis`: one `fetchWithTimeout` against
`/api/sentiment` with a 45000 ms timeout; the body is untyped in the
source, so it stays a type parameter here. -/
def api.getSentimentAnalysis {T : Type} (text : String) (o : FetchOutcome T) :
    Except String T × Nat :=
  let fr := fetchWithTimeout 45000 o
  (match fr.1 with
    | .error e => .error e
    | .ok resp =>
        if resp.ok then .ok resp.body
        else .error ("Failed to analyze sentiment: " ++ toString resp.status
          ++ " " ++ resp.statusText),
   fr.2)

/-- `api.healthCheck`: one `fetchWithTimeout` against `/health` with a
20000 ms timeout, wrapped in try/catch.  It resolves to `response.ok` on
a response and to `false` on any rejection, so its promise always
fulfills: the result is always `Except.ok`. -/
def api.healthCheck (o : FetchOutcome Unit) : Except String Bool × Nat :=
  let fr := fetchWithTimeout 20000 o
  (match fr.1 with
    | .ok resp => .ok resp.ok
    | .error _ => .ok false,
   fr.2)

/-! ### The dashboard page component -/

/-- An article as stored in the dashboard's `newsArticles` state.  The
fetched `NewsArticle` is `base`; the enrichment merge spreads the article
and adds the extra keys `aiSummary`, `marketImpact` and `confidence`,
which are distinct from the snake_case fields of `NewsArticle`.  The
outer `Option` records whether the key is present at all (it is absent on
a freshly fetched article), the inner one whether its value is null. -/
structure StoredArticle where
  base : NewsArticle
  aiSummary : Option (Option String)
  marketImpact : Option (Option String)
  confidence : Option (Option ℚ)
deriving DecidableEq

/-- A freshly fetched article stored without any enrichment keys. -/
def StoredArticle.plain (a : NewsArticle) : StoredArticle :=
  { base := a, aiSummary := none, marketImpact := none, confidence := none }

/-- The React state of the dashboard component. -/
structure DashState where
  searchQuery : String
  newsArticles : List StoredArticle
  sources : List (String × NewsSource)
  selectedSource : String
  loading : Bool
  fetchingNews : Bool
  error : Option String
  currentPage : Nat
  totalPages : Nat
  totalArticles : Nat
deriving DecidableEq

/-- The fixed page size of the dashboard (`articlesPerPage = 10`). -/
def articlesPerPage : Nat := 10

/-- One API call issued by a dashboard handler, recorded in a trace. -/
inductive ApiCall where
  | healthCheck
  | getSources
  | getNews (query : Option String) (page : Nat) (perPage : Nat)
      (source : Option String)
  | getNewsBySource (sourceId : String) (page : Nat) (perPage : Nat)
  | analyze (articleText : String) (title : String)
  | fetchAll (articlesPerSource : Nat)
deriving DecidableEq

/-- The dashboard's view of the backend: the settled result each API-client
method would deliver when awaited.  `health` is the boolean that
`api.healthCheck` resolves to (that method never rejects); every other
field is `Except.ok` for a fulfilled call and `Except.error` for a
rejected one. -/
structure Backend where
  health : Bool
  sourcesR : Except String SourcesResponse
  newsR : Option String → Nat → Nat → Option String → Except String NewsResponse
  newsBySourceR : String → Nat → Nat → Except String NewsResponse
  analyzeR : String → String → Except String NewsAnalysis
  fetchAllR : Nat → Except String FetchNewsResult

/-- `Math.ceil (a / b)` on the naturals, as the dashboard computes
`totalPages` from a server-reported total and the fixed page size. -/
def ceilDiv (a b : Nat) : Nat := (a + b - 1) / b

/-- `fetchInitialData`: clear the error, run the health check; if the
backend is unhealthy set the backend-unavailable banner and stop.
Otherwise load the source list, falling back to an empty source map when
that call rejects; no articles are fetched on startup.  The `finally`
clause leaves `loading` false on every path. -/
def fetchInitialData (b : Backend) (s : DashState) : DashState × List ApiCall :=
  let s1 := { s with loading := true, error := none }
  if !b.health then
    ({ s1 with
        error := some ("Backend server is not responding. Please ensure the "
          ++ "backend is running on http://localhost:8000"),
        loading := false },
     [ApiCall.healthCheck])
  else
    match b.sourcesR with
    | .ok sd =>
        ({ s1 with sources := sd.sources, loading := false },
         [ApiCall.healthCheck, ApiCall.getSources])
    | .error _ =>
        ({ s1 with sources := [], loading := false },
         [ApiCall.healthCheck, ApiCall.getSources])

/-- The settled state of one promise of a `Promise.allSettled` batch. -/
inductive Settled (T : Type) where
  | fulfilled (value : T)
  | rejected
deriving DecidableEq

/-- One article's enrichment promise inside `fetchNews`: the
`api.analyzeArticle` call is wrapped in try/catch, so the promise always
fulfills - with the spread article plus `aiSummary`, `marketImpact` and
`confidence` taken from the analysis on success, or with those three keys
set to null when the call rejected. -/
def enrichArticle (b : Backend) (a : NewsArticle) : Settled StoredArticle :=
  Settled.fulfilled
    (match b.analyzeR a.content a.title with
      | .ok analysis =>
          { base := a,
            aiSummary := some (some analysis.key_insights),
            marketImpact := some (some analysis.market_impact),
            confidence := some (some analysis.agno_confidence) }
      | .error _ =>
          { base := a,
            aiSummary := some none,
            marketImpact := some none,
            confidence := some none })

/-- The merge after `Promise.allSettled` in `fetchNews`: fulfilled results
keep their value; a rejected result would contribute its reason and then
be subject to the object-shape filter - a case that is unreachable
because every enrichment promise fulfills, and which the model therefore
drops. -/
def processSettled (rs : List (Settled StoredArticle)) : List StoredArticle :=
  (rs.map fun r =>
    match r with
    | Settled.fulfilled v => some v
    | Settled.rejected => none).filterMap id

/-- `fetchNews`: load one page of articles via `api.getNews` (no source
scope), publish the page and the derived pagination state, then - when
the page is non-empty - run one `api.analyzeArticle` call per article
concurrently, join them with `Promise.allSettled`, and replace the
article list with the merged enrichment results.  A rejected page fetch
sets the error banner; enrichment failures never do. -/
def fetchNews (b : Backend) (query : Option String) (page : Nat)
    (s : DashState) : DashState × List ApiCall :=
  let s1 := { s with loading := true }
  match b.newsR query page articlesPerPage none with
  | .error _ =>
      ({ s1 with
          error := some "Failed to fetch news. Please try again.",
          loading := false },
       [ApiCall.getNews query page articlesPerPage none])
  | .ok nd =>
      let s2 := { s1 with
        newsArticles := nd.articles.map StoredArticle.plain,
        totalArticles := nd.total,
        totalPages := ceilDiv nd.total articlesPerPage,
        currentPage := page,
        loading := false }
      if 0 < nd.articles.length then
        let settled := nd.articles.map (enrichArticle b)
        ({ s2 with newsArticles := processSettled settled },
         ApiCall.getNews query page articlesPerPage none ::
           nd.articles.map (fun a => ApiCall.analyze a.content a.title))
      else
        (s2, [ApiCall.getNews query page articlesPerPage none])

/-- `fetchNewsBySource`: load one page, unscoped via `api.getNews` when the
source id is `all` and scoped via `api.getNewsBySource` otherwise;
publish articles and pagination state, or set the error banner. -/
def fetchNewsBySource (b : Backend) (sourceId : String) (page : Nat)
    (s : DashState) : DashState × List ApiCall :=
  let s1 := { s with loading := true, error := none }
  let res := if sourceId = "all" then b.newsR none page articlesPerPage none
             else b.newsBySourceR sourceId page articlesPerPage
  let call := if sourceId = "all" then
                ApiCall.getNews none page articlesPerPage none
              else ApiCall.getNewsBySource sourceId page articlesPerPage
  match res with
  | .ok nd =>
      ({ s1 with
          newsArticles := nd.articles.map StoredArticle.plain,
          totalArticles := nd.total,
          totalPages := ceilDiv nd.total articlesPerPage,
          currentPage := page,
          loading := false },
       [call])
  | .error _ =>
      ({ s1 with
          error := some "Failed to fetch news. Please try again.",
          loading := false },
       [call])

/-- `handleSourceChange`: record the selected source, reset to page 1, and
fetch that source's first page. -/
def handleSourceChange (b : Backend) (sourceId : String) (s : DashState) :
    DashState × List ApiCall :=
  fetchNewsBySource b sourceId 1
    { s with selectedSource := sourceId, currentPage := 1 }

/-- JavaScript `String.prototype.trim`, modelled on the character list:
drop leading and trailing whitespace.  This executable form mirrors the
truthiness test `searchQuery.trim()` used by the dashboard handlers. -/
def jsTrim (s : String) : String :=
  String.mk
    (((s.data.dropWhile Char.isWhitespace).reverse.dropWhile
      Char.isWhitespace).reverse)

/-- `handleSearch`: when the trimmed query is non-empty, reset to page 1
and run a query search via `api.getNews`, scoped to the selected source
unless it is `all`; when the trimmed query is empty, reset to page 1 and
fall back to the selected source's unfiltered first page. -/
def handleSearch (b : Backend) (s : DashState) : DashState × List ApiCall :=
  if jsTrim s.searchQuery ≠ "" then
    let s1 := { s with loading := true, currentPage := 1 }
    let src := if s.selectedSource = "all" then none else some s.selectedSource
    match b.newsR (some s.searchQuery) 1 articlesPerPage src with
    | .ok nd =>
        ({ s1 with
            newsArticles := nd.articles.map StoredArticle.plain,
            totalArticles := nd.total,
            totalPages := ceilDiv nd.total articlesPerPage,
            loading := false },
         [ApiCall.getNews (some s.searchQuery) 1 articlesPerPage src])
    | .error _ =>
        ({ s1 with
            error := some "Failed to search news. Please try again.",
            loading := false },
         [ApiCall.getNews (some s.searchQuery) 1 articlesPerPage src])
  else
    fetchNewsBySource b s.selectedSource 1 { s with currentPage := 1 }

/-- `handlePageChange`: guard the requested page against the range
`1..totalPages`; inside the range, move to the page and re-run either the
current query search or the current source fetch; outside the range, do
nothing at all. -/
def handlePageChange (b : Backend) (page : Nat) (s : DashState) :
    DashState × List ApiCall :=
  if 1 ≤ page ∧ page ≤ s.totalPages then
    let s1 := { s with currentPage := page }
    if jsTrim s1.searchQuery ≠ "" then
      let src := if s1.selectedSource = "all" then none
                 else some s1.selectedSource
      let s2 := { s1 with loading := true }
      match b.newsR (some s1.searchQuery) page articlesPerPage src with
      | .ok nd =>
          ({ s2 with
              newsArticles := nd.articles.map StoredArticle.plain,
              loading := false },
           [ApiCall.getNews (some s1.searchQuery) page articlesPerPage src])
      | .error _ =>
          ({ s2 with
              error := some "Failed to fetch news. Please try again.",
              loading := false },
           [ApiCall.getNews (some s1.searchQuery) page articlesPerPage src])
    else
      fetchNewsBySource b s1.selectedSource page s1
  else (s, [])

/-- The page-number window of the pagination bar: `min 5 totalPages`
buttons whose labels follow the source's if-chain on `totalPages` and
`currentPage`. -/
def pageWindow (currentPage totalPages : Nat) : List Nat :=
  (List.range (min 5 totalPages)).map fun i =>
    if totalPages ≤ 5 then i + 1
    else if currentPage ≤ 3 then i + 1
    else if totalPages - 2 ≤ currentPage then totalPages - 4 + i
    else currentPage - 2 + i

/-! ### Sample values used to instantiate the theorems -/

/-- An empty initial dashboard state. -/
def state0 : DashState :=
  { searchQuery := "",
    newsArticles := [],
    sources := [],
    selectedSource := "all",
    loading := false,
    fetchingNews := false,
    error := none,
    currentPage := 1,
    totalPages := 1,
    totalArticles := 0 }

/-- A backend oracle on which every article-related call rejects. -/
def backend0 : Backend :=
  { health := true,
    sourcesR := Except.error "network error",
    newsR := fun _ _ _ _ => Except.error "network error",
    newsBySourceR := fun _ _ _ => Except.error "network error",
    analyzeR := fun _ _ => Except.error "network error",
    fetchAllR := fun _ => Except.error "network error" }

/-! ### Theorems -/

/-- C4: if the initial health check resolves to false, `fetchInitialData`
sets the backend-unavailable error message, ends with `loading` false,
and issues no API call beyond the health check itself: in particular no
`getSources` and no article fetch appear in its trace. -/
theorem fetchInitialData_unhealthy_stops (b : Backend) (s : DashState)
    (h : b.health = false) :
    fetchInitialData b s =
      ({ s with
          error := some ("Backend server is not responding. Please ensure the "
            ++ "backend is running on http://localhost:8000"),
          loading := false },
       [ApiCall.healthCheck]) := by
  simp [fetchInitialData, h]

/-- Witness for C4 at a concrete unhealthy backend and empty state. -/
theorem fetchInitialData_unhealthy_stops_witness :
    ({ backend0 with health := false } : Backend).health = false ∧
    fetchInitialData { backend0 with health := false } state0 =
      ({ state0 with
          error := some ("Backend server is not responding. Please ensure the "
            ++ "backend is running on http://localhost:8000"),
          loading := false },
       [ApiCall.healthCheck]) :=
  ⟨rfl, fetchInitialData_unhealthy_stops { backend0 with health := false } state0 rfl⟩

/-- C5: if `getSources` rejects during the initial load, `fetchInitialData`
catches the error, stores an empty source map, and completes (with
`loading` false) without setting the page-level error state. -/
theorem fetchInitialData_sources_failure_tolerated (b : Backend) (s : DashState)
    (e : String) (hh : b.health = true) (hs : b.sourcesR = Except.error e) :
    fetchInitialData b s =
      ({ s with sources := [], error := none, loading := false },
       [ApiCall.healthCheck, ApiCall.getSources]) := by
  simp [fetchInitialData, hh, hs]

/-- Witness for C5 at a concrete healthy backend whose source call rejects. -/
theorem fetchInitialData_sources_failure_tolerated_witness :
    backend0.health = true ∧
    backend0.sourcesR = Except.error "network error" ∧
    fetchInitialData backend0 state0 =
      ({ state0 with sources := [], error := none, loading := false },
       [ApiCall.healthCheck, ApiCall.getSources]) :=
  ⟨rfl, rfl,
   fetchInitialData_sources_failure_tolerated backend0 state0 "network error" rfl rfl⟩

/-- C7: for every source identifier, `handleSourceChange` records the
selected source, resets the current page to 1, and issues exactly one
page-1 fetch - source-scoped via `getNewsBySource` when the identifier is
not `all`, unscoped via `getNews` when it is. -/
theorem handleSourceChange_resets_and_scopes (b : Backend) (sourceId : String)
    (s : DashState) :
    (handleSourceChange b sourceId s).1.selectedSource = sourceId ∧
    (handleSourceChange b sourceId s).1.currentPage = 1 ∧
    (handleSourceChange b sourceId s).2 =
      (if sourceId = "all" then [ApiCall.getNews none 1 articlesPerPage none]
       else [ApiCall.getNewsBySource sourceId 1 articlesPerPage]) := by
  by_cases h : sourceId = "all" <;>
    simp only [handleSourceChange, fetchNewsBySource, h, if_true, if_false,
      ite_true, ite_false]
  · cases b.newsR none 1 articlesPerPage none <;> simp
  · cases b.newsBySourceR sourceId 1 articlesPerPage <;> simp [h]

/-- C10: for every page number outside `1..totalPages`, `handlePageChange`
is a no-op: the state is returned unchanged and no API call is issued. -/
theorem handlePageChange_out_of_range_noop (b : Backend) (page : Nat)
    (s : DashState) (h : page = 0 ∨ s.totalPages < page) :
    handlePageChange b page s = (s, []) := by
  have hng : ¬ (1 ≤ page ∧ page ≤ s.totalPages) := by omega
  simp [handlePageChange, hng]

/-- Witness for C10 at page 0 against a concrete state. -/
theorem handlePageChange_out_of_range_noop_witness :
    ((0 : Nat) = 0 ∨ state0.totalPages < 0) ∧
    handlePageChange backend0 0 state0 = (state0, []) :=
  ⟨Or.inl rfl, handlePageChange_out_of_range_noop backend0 0 state0 (Or.inl rfl)⟩

/-- C8: `healthCheck` is total over network outcomes: on every fetch
outcome it resolves (never rejects) to a boolean that is true exactly
when the response status is 2xx, and false on a non-2xx response, a
timeout, or a network error - while every other API-client method has an
outcome (a timeout) on which it rejects. -/
theorem healthCheck_total_boolean :
    (∀ o : FetchOutcome Unit, ∃ bl : Bool, (api.healthCheck o).1 = Except.ok bl) ∧
    (∀ resp : HttpResponse Unit,
      (api.healthCheck (FetchOutcome.success resp)).1 =
        Except.ok (decide (200 ≤ resp.status ∧ resp.status < 300))) ∧
    (api.healthCheck FetchOutcome.abortError).1 = Except.ok false ∧
    (∀ msg, (api.healthCheck (FetchOutcome.otherError msg)).1 = Except.ok false) ∧
    (api.getNews none 1 10 none FetchOutcome.abortError).1 =
      Except.error ("Request timeout after " ++ toString 45000 ++ "ms") ∧
    (api.getNewsBySource "bdnews24" 1 10 FetchOutcome.abortError).1 =
      Except.error ("Request timeout after " ++ toString 45000 ++ "ms") ∧
    (api.getSources FetchOutcome.abortError).1 =
      Except.error ("Request timeout after " ++ toString 15000 ++ "ms") ∧
    (api.fetchNewsFromSources 15 FetchOutcome.abortError).1 =
      Except.error ("Request timeout after " ++ toString 120000 ++ "ms") ∧
    (api.getHeadlines "business" "us" 10 FetchOutcome.abortError).1 =
      Except.error ("Request timeout after " ++ toString 45000 ++ "ms") ∧
    (api.getTrendingTopics 24 FetchOutcome.abortError).1 =
      Except.error ("Request timeout after " ++ toString 45000 ++ "ms") ∧
    (api.getMarketInsights FetchOutcome.abortError).1 =
      Except.error ("Request timeout after " ++ toString 45000 ++ "ms") ∧
    (api.analyzeArticle "text" "title" FetchOutcome.abortError).1 =
      Except.error ("Request timeout after " ++ toString 60000 ++ "ms") ∧
    (api.getSentimentAnalysis "text"
        (FetchOutcome.abortError : FetchOutcome Unit)).1 =
      Except.error ("Request timeout after " ++ toString 45000 ++ "ms") := by
  refine ⟨fun o => ?_, fun resp => rfl, rfl, fun msg => rfl,
    rfl, rfl, rfl, rfl, rfl, rfl, rfl, rfl, rfl⟩
  cases o <;> exact ⟨_, rfl⟩

/-- C3 counterexample: `healthCheck` is an API-client method, makes its one
fetch attempt, and yet a non-2xx response (here a 500) is not surfaced to
the caller as a thrown error: the call resolves to `false`. -/
theorem api_nonOk_throw_counterexample :
    api.healthCheck
        (FetchOutcome.success
          { status := 500, statusText := "Internal Server Error", body := () }) =
      (Except.ok false, 1) := rfl

/-- C2: the dashboard derives `totalPages` as the ceiling of the
server-reported total over the fixed page size 10 (so a total of 47
yields 5 pages), and the 5-button page window shows the window centered
on the current page exactly in the middle regime `3 < currentPage` and
`currentPage < totalPages - 2`, the first five pages when
`currentPage ≤ 3`, the last five pages when `totalPages - 2 ≤
currentPage` (for every `totalPages > 5`), and the pages `1..totalPages`
whenever `totalPages ≤ 5`. -/
theorem totalPages_and_pageWindow :
    (∀ (b : Backend) (s : DashState) (query : Option String) (page : Nat)
        (nd : NewsResponse),
      b.newsR query page articlesPerPage none = Except.ok nd →
      (fetchNews b query page s).1.totalPages = ceilDiv nd.total articlesPerPage) ∧
    ceilDiv 47 10 = 5 ∧
    (∀ total : Nat,
      total ≤ 10 * ceilDiv total 10 ∧ 10 * ceilDiv total 10 < total + 10) ∧
    (∀ tp cp : Nat, tp ≤ 5 →
      pageWindow cp tp = (List.range tp).map (fun i => i + 1)) ∧
    (∀ tp cp : Nat, 5 < tp → cp ≤ 3 → pageWindow cp tp = [1, 2, 3, 4, 5]) ∧
    (∀ tp cp : Nat, 5 < tp → tp - 2 ≤ cp →
      pageWindow cp tp = [tp - 4, tp - 3, tp - 2, tp - 1, tp]) ∧
    (∀ tp cp : Nat, 5 < tp → 3 < cp → cp < tp - 2 →
      pageWindow cp tp = [cp - 2, cp - 1, cp, cp + 1, cp + 2]) := by
  refine ⟨?_, by norm_num [ceilDiv], ?_, ?_, ?_, ?_, ?_⟩
  · intro b s query page nd hok
    simp only [fetchNews, hok]
    split <;> rfl
  · intro total
    unfold ceilDiv
    omega
  · intro tp cp h
    simp [pageWindow, Nat.min_eq_right h, h]
  · intro tp cp h5 h3
    have h1 : ¬ tp ≤ 5 := by omega
    have hm : min 5 tp = 5 := Nat.min_eq_left (by omega)
    simp [pageWindow, hm, h1, h3]
    decide
  · intro tp cp h5 hge
    have h1 : ¬ tp ≤ 5 := by omega
    have h3 : ¬ cp ≤ 3 := by omega
    have hm : min 5 tp = 5 := Nat.min_eq_left (by omega)
    have hr : List.range 5 = [0, 1, 2, 3, 4] := by decide
    simp only [pageWindow, hm, hr, List.map_cons, List.map_nil,
      if_neg h1, if_neg h3, if_pos hge]
    simp only [List.cons.injEq, and_true]
    omega
  · intro tp cp h5 h3 hlt
    have h1 : ¬ tp ≤ 5 := by omega
    have h2 : ¬ cp ≤ 3 := by omega
    have h4 : ¬ tp - 2 ≤ cp := by omega
    have hm : min 5 tp = 5 := Nat.min_eq_left (by omega)
    have hr : List.range 5 = [0, 1, 2, 3, 4] := by decide
    simp only [pageWindow, hm, hr, List.map_cons, List.map_nil,
      if_neg h1, if_neg h2, if_neg h4]
    simp only [List.cons.injEq, and_true]
    omega

/-- A paginated empty page with a server-reported total of 47 articles. -/
def news47 : NewsResponse := { articles := [], total := 47, page := 1, per_page := 10 }

/-- A backend whose unscoped news call returns `news47`. -/
def backend47 : Backend := { backend0 with newsR := fun _ _ _ _ => Except.ok news47 }

/-- Witness for C2: total 47 gives 5 pages through `fetchNews`, and each
window regime evaluated at a concrete instance. -/
theorem totalPages_and_pageWindow_witness :
    backend47.newsR none 1 articlesPerPage none = Except.ok news47 ∧
    (fetchNews backend47 none 1 state0).1.totalPages =
      ceilDiv news47.total articlesPerPage ∧
    ceilDiv 47 10 = 5 ∧
    (47 ≤ 10 * ceilDiv 47 10 ∧ 10 * ceilDiv 47 10 < 47 + 10) ∧
    ((4 : Nat) ≤ 5 ∧ pageWindow 2 4 = (List.range 4).map (fun i => i + 1)) ∧
    ((5 : Nat) < 10 ∧ (2 : Nat) ≤ 3 ∧ pageWindow 2 10 = [1, 2, 3, 4, 5]) ∧
    ((5 : Nat) < 10 ∧ (10 : Nat) - 2 ≤ 9 ∧
      pageWindow 9 10 = [10 - 4, 10 - 3, 10 - 2, 10 - 1, 10]) ∧
    ((5 : Nat) < 10 ∧ (3 : Nat) < 5 ∧ (5 : Nat) < 10 - 2 ∧
      pageWindow 5 10 = [5 - 2, 5 - 1, 5, 5 + 1, 5 + 2]) :=
  ⟨rfl,
   totalPages_and_pageWindow.1 backend47 state0 none 1 news47 rfl,
   totalPages_and_pageWindow.2.1,
   totalPages_and_pageWindow.2.2.1 47,
   ⟨by decide, totalPages_and_pageWindow.2.2.2.1 4 2 (by decide)⟩,
   ⟨by decide, by decide, totalPages_and_pageWindow.2.2.2.2.1 10 2 (by decide) (by decide)⟩,
   ⟨by decide, by decide,
    totalPages_and_pageWindow.2.2.2.2.2.1 10 9 (by decide) (by decide)⟩,
   ⟨by decide, by decide, by decide,
    totalPages_and_pageWindow.2.2.2.2.2.2 10 5 (by decide) (by decide) (by decide)⟩⟩

/-- C6: a search whose query trims to empty issues no query search: it
resets to page 1 and fetches the selected source's unfiltered first page
(unscoped `getNews` for `all`, `getNewsBySource` otherwise); a
non-whitespace query issues exactly one `getNews` request carrying the
query, page 1, and the selected source (no source when `all`), with the
current page reset to 1 either way. -/
theorem handleSearch_blank_and_query (b : Backend) (s : DashState) :
    (jsTrim s.searchQuery = "" →
      (handleSearch b s).2 =
        (if s.selectedSource = "all"
         then [ApiCall.getNews none 1 articlesPerPage none]
         else [ApiCall.getNewsBySource s.selectedSource 1 articlesPerPage]) ∧
      (handleSearch b s).1.currentPage = 1) ∧
    (jsTrim s.searchQuery ≠ "" →
      (handleSearch b s).2 =
        [ApiCall.getNews (some s.searchQuery) 1 articlesPerPage
          (if s.selectedSource = "all" then none else some s.selectedSource)] ∧
      (handleSearch b s).1.currentPage = 1) := by
  constructor
  · intro hq
    by_cases h : s.selectedSource = "all"
    · cases hnr : b.newsR none 1 articlesPerPage none <;>
        simp [handleSearch, fetchNewsBySource, hq, h, hnr]
    · cases hnr : b.newsBySourceR s.selectedSource 1 articlesPerPage <;>
        simp [handleSearch, fetchNewsBySource, hq, h, hnr]
  · intro hq
    cases hnr : b.newsR (some s.searchQuery) 1 articlesPerPage
        (if s.selectedSource = "all" then none else some s.selectedSource) <;>
      simp [handleSearch, hq, hnr]

/-- C3 (amended): every API-client call makes exactly one fetch attempt
(no retries) with a per-call timeout between 15000 ms and 120000 ms
inclusive enforced by abort-based cancellation; for every method except
`healthCheck`, a non-2xx response is surfaced as a thrown error whose
message embeds the HTTP status, and a timeout as a thrown error whose
message embeds the timeout duration in milliseconds; `healthCheck`
instead resolves to a boolean on every outcome. -/
theorem api_single_attempt_timeout_errors :
    (∀ (query : Option String) (page perPage : Nat) (source : Option String)
        (resp : HttpResponse NewsResponse),
      (api.getNews query page perPage source (FetchOutcome.success resp)).1 =
        (if 200 ≤ resp.status ∧ resp.status < 300 then Except.ok resp.body
         else Except.error ("Failed to fetch news: " ++ toString resp.status
           ++ " " ++ resp.statusText))) ∧
    (∀ (query : Option String) (page perPage : Nat) (source : Option String),
      (api.getNews query page perPage source FetchOutcome.abortError).1 =
        Except.error ("Request timeout after " ++ toString 45000 ++ "ms")) ∧
    (∀ (query : Option String) (page perPage : Nat) (source : Option String)
        (o : FetchOutcome NewsResponse),
      (api.getNews query page perPage source o).2 = 1) ∧
    (15000 ≤ 45000 ∧ 45000 ≤ 120000) ∧
    (∀ (sourceId : String) (page perPage : Nat) (resp : HttpResponse NewsResponse),
      (api.getNewsBySource sourceId page perPage (FetchOutcome.success resp)).1 =
        (if 200 ≤ resp.status ∧ resp.status < 300 then Except.ok resp.body
         else Except.error ("Failed to fetch news from source: "
           ++ toString resp.status ++ " " ++ resp.statusText))) ∧
    (∀ (sourceId : String) (page perPage : Nat),
      (api.getNewsBySource sourceId page perPage FetchOutcome.abortError).1 =
        Except.error ("Request timeout after " ++ toString 45000 ++ "ms")) ∧
    (∀ (sourceId : String) (page perPage : Nat) (o : FetchOutcome NewsResponse),
      (api.getNewsBySource sourceId page perPage o).2 = 1) ∧
    (∀ resp : HttpResponse SourcesResponse,
      (api.getSources (FetchOutcome.success resp)).1 =
        (if 200 ≤ resp.status ∧ resp.status < 300 then Except.ok resp.body
         else Except.error ("Failed to fetch sources: " ++ toString resp.status
           ++ " " ++ resp.statusText))) ∧
    (api.getSources FetchOutcome.abortError).1 =
      Except.error ("Request timeout after " ++ toString 15000 ++ "ms") ∧
    (∀ o : FetchOutcome SourcesResponse, (api.getSources o).2 = 1) ∧
    (15000 ≤ 15000 ∧ 15000 ≤ 120000) ∧
    (∀ (articlesPerSource : Nat) (resp : HttpResponse FetchNewsResult),
      (api.fetchNewsFromSources articlesPerSource (FetchOutcome.success resp)).1 =
        (if 200 ≤ resp.status ∧ resp.status < 300 then Except.ok resp.body
         else Except.error ("Failed to fetch news from sources: "
           ++ toString resp.status ++ " " ++ resp.statusText))) ∧
    (∀ articlesPerSource : Nat,
      (api.fetchNewsFromSources articlesPerSource FetchOutcome.abortError).1 =
        Except.error ("Request timeout after " ++ toString 120000 ++ "ms")) ∧
    (∀ (articlesPerSource : Nat) (o : FetchOutcome FetchNewsResult),
      (api.fetchNewsFromSources articlesPerSource o).2 = 1) ∧
    (15000 ≤ 120000 ∧ 120000 ≤ 120000) ∧
    (∀ (category country : String) (pageSize : Nat)
        (resp : HttpResponse NewsResponse),
      (api.getHeadlines category country pageSize (FetchOutcome.success resp)).1 =
        (if 200 ≤ resp.status ∧ resp.status < 300 then Except.ok resp.body
         else Except.error ("Failed to fetch headlines: " ++ toString resp.status
           ++ " " ++ resp.statusText))) ∧
    (∀ (category country : String) (pageSize : Nat),
      (api.getHeadlines category country pageSize FetchOutcome.abortError).1 =
        Except.error ("Request timeout after " ++ toString 45000 ++ "ms")) ∧
    (∀ (category country : String) (pageSize : Nat) (o : FetchOutcome NewsResponse),
      (api.getHeadlines category country pageSize o).2 = 1) ∧
    (∀ (hoursBack : Nat) (resp : HttpResponse TrendingTopicsResponse),
      (api.getTrendingTopics hoursBack (FetchOutcome.success resp)).1 =
        (if 200 ≤ resp.status ∧ resp.status < 300 then Except.ok resp.body
         else Except.error ("Failed to fetch trending topics: "
           ++ toString resp.status ++ " " ++ resp.statusText))) ∧
    (∀ hoursBack : Nat,
      (api.getTrendingTopics hoursBack FetchOutcome.abortError).1 =
        Except.error ("Request timeout after " ++ toString 45000 ++ "ms")) ∧
    (∀ (hoursBack : Nat) (o : FetchOutcome TrendingTopicsResponse),
      (api.getTrendingTopics hoursBack o).2 = 1) ∧
    (∀ resp : HttpResponse MarketInsightsResponse,
      (api.getMarketInsights (FetchOutcome.success resp)).1 =
        (if 200 ≤ resp.status ∧ resp.status < 300 then Except.ok resp.body
         else Except.error ("Failed to fetch market insights: "
           ++ toString resp.status ++ " " ++ resp.statusText))) ∧
    (api.getMarketInsights FetchOutcome.abortError).1 =
      Except.error ("Request timeout after " ++ toString 45000 ++ "ms") ∧
    (∀ o : FetchOutcome MarketInsightsResponse, (api.getMarketInsights o).2 = 1) ∧
    (∀ (articleText title : String) (resp : HttpResponse NewsAnalysis),
      (api.analyzeArticle articleText title (FetchOutcome.success resp)).1 =
        (if 200 ≤ resp.status ∧ resp.status < 300 then Except.ok resp.body
         else Except.error ("Failed to analyze article: " ++ toString resp.status
           ++ " " ++ resp.statusText))) ∧
    (∀ articleText title : String,
      (api.analyzeArticle articleText title FetchOutcome.abortError).1 =
        Except.error ("Request timeout after " ++ toString 60000 ++ "ms")) ∧
    (∀ (articleText title : String) (o : FetchOutcome NewsAnalysis),
      (api.analyzeArticle articleText title o).2 = 1) ∧
    (15000 ≤ 60000 ∧ 60000 ≤ 120000) ∧
    (∀ (text : String) (resp : HttpResponse Unit),
      (api.getSentimentAnalysis text (FetchOutcome.success resp)).1 =
        (if 200 ≤ resp.status ∧ resp.status < 300 then Except.ok resp.body
         else Except.error ("Failed to analyze sentiment: " ++ toString resp.status
           ++ " " ++ resp.statusText))) ∧
    (∀ text : String,
      (api.getSentimentAnalysis text
          (FetchOutcome.abortError : FetchOutcome Unit)).1 =
        Except.error ("Request timeout after " ++ toString 45000 ++ "ms")) ∧
    (∀ (text : String) (o : FetchOutcome Unit),
      (api.getSentimentAnalysis text o).2 = 1) ∧
    (∀ o : FetchOutcome Unit, ∃ bl : Bool, (api.healthCheck o).1 = Except.ok bl) ∧
    (∀ o : FetchOutcome Unit, (api.healthCheck o).2 = 1) ∧
    (15000 ≤ 20000 ∧ 20000 ≤ 120000) := by
  refine ⟨?_, fun _ _ _ _ => rfl, fun _ _ _ _ _ => rfl, by norm_num,
    ?_, fun _ _ _ => rfl, fun _ _ _ _ => rfl,
    ?_, rfl, fun _ => rfl, by norm_num,
    ?_, fun _ => rfl, fun _ _ => rfl, by norm_num,
    ?_, fun _ _ _ => rfl, fun _ _ _ _ => rfl,
    ?_, fun _ => rfl, fun _ _ => rfl,
    ?_, rfl, fun _ => rfl,
    ?_, fun _ _ => rfl, fun _ _ _ => rfl, by norm_num,
    ?_, fun _ => rfl, fun _ _ => rfl,
    fun o => ?_, fun _ => rfl, by norm_num⟩
  case _ => intro query page perPage source resp
            by_cases h : 200 ≤ resp.status ∧ resp.status < 300 <;>
              simp [api.getNews, fetchWithTimeout, HttpResponse.ok, h]
  case _ => intro sourceId page perPage resp
            by_cases h : 200 ≤ resp.status ∧ resp.status < 300 <;>
              simp [api.getNewsBySource, fetchWithTimeout, HttpResponse.ok, h]
  case _ => intro resp
            by_cases h : 200 ≤ resp.status ∧ resp.status < 300 <;>
              simp [api.getSources, fetchWithTimeout, HttpResponse.ok, h]
  case _ => intro articlesPerSource resp
            by_cases h : 200 ≤ resp.status ∧ resp.status < 300 <;>
              simp [api.fetchNewsFromSources, fetchWithTimeout, HttpResponse.ok, h]
  case _ => intro category country pageSize resp
            by_cases h : 200 ≤ resp.status ∧ resp.status < 300 <;>
              simp [api.getHeadlines, fetchWithTimeout, HttpResponse.ok, h]
  case _ => intro hoursBack resp
            by_cases h : 200 ≤ resp.status ∧ resp.status < 300 <;>
              simp [api.getTrendingTopics, fetchWithTimeout, HttpResponse.ok, h]
  case _ => intro resp
            by_cases h : 200 ≤ resp.status ∧ resp.status < 300 <;>
              simp [api.getMarketInsights, fetchWithTimeout, HttpResponse.ok, h]
  case _ => intro articleText title resp
            by_cases h : 200 ≤ resp.status ∧ resp.status < 300 <;>
              simp [api.analyzeArticle, fetchWithTimeout, HttpResponse.ok, h]
  case _ => intro text resp
            by_cases h : 200 ≤ resp.status ∧ resp.status < 300 <;>
              simp [api.getSentimentAnalysis, fetchWithTimeout, HttpResponse.ok, h]
  case _ => cases o <;> exact ⟨_, rfl⟩

/-- A fulfilled settled result contributes its value to the merge. -/
theorem processSettled_cons_fulfilled (v : StoredArticle)
    (rs : List (Settled StoredArticle)) :
    processSettled (Settled.fulfilled v :: rs) = v :: processSettled rs := by
  simp [processSettled]

/-- The enrichment batch merges to one stored article per fetched article:
the article itself spread with the analysis data when its analyze call
fulfilled, or with the three enrichment keys null when it rejected. -/
theorem processSettled_enrich (b : Backend) (l : List NewsArticle) :
    processSettled (l.map (enrichArticle b)) =
      l.map (fun a =>
        match b.analyzeR a.content a.title with
        | Except.ok analysis =>
            { base := a,
              aiSummary := some (some analysis.key_insights),
              marketImpact := some (some analysis.market_impact),
              confidence := some (some analysis.agno_confidence) }
        | Except.error _ =>
            { base := a,
              aiSummary := some none,
              marketImpact := some none,
              confidence := some none }) := by
  induction l with
  | nil => rfl
  | cons a t ih =>
      cases hb : b.analyzeR a.content a.title <;>
        simp [enrichArticle, hb, processSettled_cons_fulfilled, ih]

/-- C1: for every loaded page of N articles with N positive, `fetchNews`
issues exactly N `analyzeArticle` enrichment calls, one per article, after
the single page fetch; the batch never fails the view (the error state is
untouched and the handler completes with `loading` false); and in the
merged article list the i-th entry keeps its fetched article, carries the
returned enrichment data when its analyze call fulfilled, and has all
three enrichment fields null when it rejected. -/
theorem fetchNews_enrichment_fanout (b : Backend) (s : DashState)
    (query : Option String) (page : Nat) (nd : NewsResponse)
    (hok : b.newsR query page articlesPerPage none = Except.ok nd)
    (hpos : 0 < nd.articles.length) :
    (fetchNews b query page s).2 =
      ApiCall.getNews query page articlesPerPage none ::
        nd.articles.map (fun a => ApiCall.analyze a.content a.title) ∧
    ((fetchNews b query page s).2.filter
        (fun c => match c with
          | ApiCall.analyze _ _ => true
          | _ => false)).length = nd.articles.length ∧
    (fetchNews b query page s).1.error = s.error ∧
    (fetchNews b query page s).1.loading = false ∧
    (fetchNews b query page s).1.newsArticles.length = nd.articles.length ∧
    (∀ (i : Nat) (hi : i < nd.articles.length)
        (hi2 : i < (fetchNews b query page s).1.newsArticles.length),
      ((fetchNews b query page s).1.newsArticles[i]).base = nd.articles[i] ∧
      (∀ e, b.analyzeR (nd.articles[i]).content (nd.articles[i]).title =
          Except.error e →
        ((fetchNews b query page s).1.newsArticles[i]).aiSummary = some none ∧
        ((fetchNews b query page s).1.newsArticles[i]).marketImpact = some none ∧
        ((fetchNews b query page s).1.newsArticles[i]).confidence = some none) ∧
      (∀ an, b.analyzeR (nd.articles[i]).content (nd.articles[i]).title =
          Except.ok an →
        ((fetchNews b query page s).1.newsArticles[i]).aiSummary =
          some (some an.key_insights) ∧
        ((fetchNews b query page s).1.newsArticles[i]).marketImpact =
          some (some an.market_impact) ∧
        ((fetchNews b query page s).1.newsArticles[i]).confidence =
          some (some an.agno_confidence))) := by
  have key : fetchNews b query page s =
      ({ s with
          newsArticles := processSettled (nd.articles.map (enrichArticle b)),
          totalArticles := nd.total,
          totalPages := ceilDiv nd.total articlesPerPage,
          currentPage := page,
          loading := false },
       ApiCall.getNews query page articlesPerPage none ::
         nd.articles.map (fun a => ApiCall.analyze a.content a.title)) := by
    simp [fetchNews, hok, hpos]
  have hfilter : ∀ l : List NewsArticle,
      ((l.map (fun a => ApiCall.analyze a.content a.title)).filter
        (fun c => match c with
          | ApiCall.analyze _ _ => true
          | _ => false)) = l.map (fun a => ApiCall.analyze a.content a.title) := by
    intro l
    induction l with
    | nil => rfl
    | cons a t ih => simp [ih]
  refine ⟨?_, ?_, ?_, ?_, ?_, ?_⟩
  · rw [key]
  · rw [key]
    simp only [List.filter_cons]
    simp [hfilter nd.articles]
  · rw [key]
  · rw [key]
  · rw [key, processSettled_enrich]
    simp
  · intro i hi hi2
    simp only [key, processSettled_enrich, List.getElem_map]
    cases hban : b.analyzeR (nd.articles[i]).content (nd.articles[i]).title with
    | ok an =>
        refine ⟨by simp [hban], ?_, ?_⟩
        · intro e he
          exact absurd he (by simp)
        · intro an2 he
          have han : an = an2 := by injection he
          subst han
          simp
    | error e0 =>
        refine ⟨by simp [hban], ?_, ?_⟩
        · intro e he
          simp
        · intro an2 he
          exact absurd he (by simp)

/-- A concrete fetched article whose analyze call will fulfill. -/
def articleA : NewsArticle :=
  { id := 1, title := "Garment exports rise", content := "Exports rose.",
    summary := "", url := "", source := "bdnews24", source_url := "",
    author := "", published_at := "", created_at := "", updated_at := "",
    ai_summary := some "old summary", market_impact := some "low",
    confidence_score := some 1, is_processed := some true }

/-- A concrete fetched article whose analyze call will reject. -/
def articleB : NewsArticle :=
  { id := 2, title := "Cotton prices fall", content := "Prices fell.",
    summary := "", url := "", source := "bdnews24", source_url := "",
    author := "", published_at := "", created_at := "", updated_at := "",
    ai_summary := none, market_impact := none, confidence_score := none,
    is_processed := none }

/-- A concrete analysis result for `articleA`. -/
def analysisA : NewsAnalysis :=
  { id := 7, article_id := 1, key_insights := "exports up",
    market_impact := "positive", industry_sectors := "RMG",
    geographic_impact := "BD", agno_analysis_id := "a-1",
    agno_confidence := 9 / 10, created_at := "" }

/-- A two-article page with both concrete articles. -/
def newsAB : NewsResponse :=
  { articles := [articleA, articleB], total := 2, page := 1, per_page := 10 }

/-- A backend returning the two-article page whose analyze call fulfills on
the first article and rejects on the second. -/
def backendAB : Backend :=
  { backend0 with
      newsR := fun _ _ _ _ => Except.ok newsAB,
      analyzeR := fun content _ =>
        if content = articleA.content then Except.ok analysisA
        else Except.error "analysis failed" }

/-- Witness for C1 at the concrete two-article page with one enrichment
rejection. -/
theorem fetchNews_enrichment_fanout_witness :
    backendAB.newsR none 1 articlesPerPage none = Except.ok newsAB ∧
    0 < newsAB.articles.length ∧
    ((fetchNews backendAB none 1 state0).2 =
      ApiCall.getNews none 1 articlesPerPage none ::
        newsAB.articles.map (fun a => ApiCall.analyze a.content a.title) ∧
    ((fetchNews backendAB none 1 state0).2.filter
        (fun c => match c with
          | ApiCall.analyze _ _ => true
          | _ => false)).length = newsAB.articles.length ∧
    (fetchNews backendAB none 1 state0).1.error = state0.error ∧
    (fetchNews backendAB none 1 state0).1.loading = false ∧
    (fetchNews backendAB none 1 state0).1.newsArticles.length =
      newsAB.articles.length ∧
    (∀ (i : Nat) (hi : i < newsAB.articles.length)
        (hi2 : i < (fetchNews backendAB none 1 state0).1.newsArticles.length),
      ((fetchNews backendAB none 1 state0).1.newsArticles[i]).base =
        newsAB.articles[i] ∧
      (∀ e, backendAB.analyzeR (newsAB.articles[i]).content
          (newsAB.articles[i]).title = Except.error e →
        ((fetchNews backendAB none 1 state0).1.newsArticles[i]).aiSummary =
          some none ∧
        ((fetchNews backendAB none 1 state0).1.newsArticles[i]).marketImpact =
          some none ∧
        ((fetchNews backendAB none 1 state0).1.newsArticles[i]).confidence =
          some none) ∧
      (∀ an, backendAB.analyzeR (newsAB.articles[i]).content
          (newsAB.articles[i]).title = Except.ok an →
        ((fetchNews backendAB none 1 state0).1.newsArticles[i]).aiSummary =
          some (some an.key_insights) ∧
        ((fetchNews backendAB none 1 state0).1.newsArticles[i]).marketImpact =
          some (some an.market_impact) ∧
        ((fetchNews backendAB none 1 state0).1.newsArticles[i]).confidence =
          some (some an.agno_confidence)))) :=
  ⟨rfl, by decide,
   fetchNews_enrichment_fanout backendAB state0 none 1 newsAB rfl (by decide)⟩

/-- The enrichment merge keeps each fetched article unchanged as the `base`
of its stored entry. -/
theorem map_base_enrich (b : Backend) (l : List NewsArticle) :
    (processSettled (l.map (enrichArticle b))).map StoredArticle.base = l := by
  induction l with
  | nil => rfl
  | cons a t ih =>
      cases hb : b.analyzeR a.content a.title <;>
        simp [enrichArticle, hb, processSettled_cons_fulfilled, ih]

/-- Storing fetched articles without enrichment keys keeps them unchanged
as the `base` of each stored entry. -/
theorem map_base_plain (l : List NewsArticle) :
    (l.map StoredArticle.plain).map StoredArticle.base = l := by
  induction l with
  | nil => rfl
  | cons a t ih => simp [StoredArticle.plain, ih]

/-- C9: the post-enrichment merge leaves every article's `ai_summary`,
`market_impact` and `confidence_score` fields unchanged from the fetched
values: the enrichment data lives under the separate keys `aiSummary`,
`marketImpact` and `confidence` of the stored entry, and the underlying
`NewsArticle` of every stored entry is exactly the fetched one. -/
theorem enrichment_preserves_base_fields (b : Backend) (s : DashState)
    (query : Option String) (page : Nat) (nd : NewsResponse)
    (hok : b.newsR query page articlesPerPage none = Except.ok nd) :
    (fetchNews b query page s).1.newsArticles.map StoredArticle.base =
      nd.articles ∧
    (∀ (i : Nat) (hi2 : i < (fetchNews b query page s).1.newsArticles.length)
        (hi : i < nd.articles.length),
      ((fetchNews b query page s).1.newsArticles[i]).base.ai_summary =
        (nd.articles[i]).ai_summary ∧
      ((fetchNews b query page s).1.newsArticles[i]).base.market_impact =
        (nd.articles[i]).market_impact ∧
      ((fetchNews b query page s).1.newsArticles[i]).base.confidence_score =
        (nd.articles[i]).confidence_score) := by
  constructor
  · by_cases hpos : 0 < nd.articles.length
    · simp only [fetchNews, hok, if_pos hpos]
      exact map_base_enrich b nd.articles
    · simp only [fetchNews, hok, if_neg hpos]
      exact map_base_plain nd.articles
  · intro i hi2 hi
    have hbase : ((fetchNews b query page s).1.newsArticles[i]).base =
        nd.articles[i] := by
      by_cases hpos : 0 < nd.articles.length
      · simp only [fetchNews, hok, if_pos hpos, processSettled_enrich,
          List.getElem_map]
        cases hb : b.analyzeR (nd.articles[i]).content (nd.articles[i]).title <;>
          simp
      · simp only [fetchNews, hok, if_neg hpos, List.getElem_map]
        rfl
    rw [hbase]
    exact ⟨rfl, rfl, rfl⟩

/-- Witness for C9 at the concrete two-article page. -/
theorem enrichment_preserves_base_fields_witness :
    backendAB.newsR none 1 articlesPerPage none = Except.ok newsAB ∧
    ((fetchNews backendAB none 1 state0).1.newsArticles.map StoredArticle.base =
      newsAB.articles ∧
    (∀ (i : Nat)
        (hi2 : i < (fetchNews backendAB none 1 state0).1.newsArticles.length)
        (hi : i < newsAB.articles.length),
      ((fetchNews backendAB none 1 state0).1.newsArticles[i]).base.ai_summary =
        (newsAB.articles[i]).ai_summary ∧
      ((fetchNews backendAB none 1 state0).1.newsArticles[i]).base.market_impact =
        (newsAB.articles[i]).market_impact ∧
      ((fetchNews backendAB none 1
          state0).1.newsArticles[i]).base.confidence_score =
        (newsAB.articles[i]).confidence_score)) :=
  ⟨rfl, enrichment_preserves_base_fields backendAB state0 none 1 newsAB rfl⟩

/-- A dashboard state with a non-whitespace search query. -/
def stateQ : DashState := { state0 with searchQuery := "garment" }

/-- Witness for C6: a blank query falls back to the selected source's
unfiltered page 1, and a non-whitespace query issues the query search. -/
theorem handleSearch_blank_and_query_witness :
    jsTrim state0.searchQuery = "" ∧
    ((handleSearch backend0 state0).2 =
      (if state0.selectedSource = "all"
       then [ApiCall.getNews none 1 articlesPerPage none]
       else [ApiCall.getNewsBySource state0.selectedSource 1 articlesPerPage]) ∧
     (handleSearch backend0 state0).1.currentPage = 1) ∧
    jsTrim stateQ.searchQuery ≠ "" ∧
    ((handleSearch backend0 stateQ).2 =
      [ApiCall.getNews (some stateQ.searchQuery) 1 articlesPerPage
        (if stateQ.selectedSource = "all" then none
         else some stateQ.selectedSource)] ∧
     (handleSearch backend0 stateQ).1.currentPage = 1) :=
  ⟨by decide, (handleSearch_blank_and_query backend0 state0).1 (by decide),
   by decide, (handleSearch_blank_and_query backend0 stateQ).2 (by decide)⟩
